import Mathlib

/-!
Shallow embedding of `repo_crawler/crawl.py`: the `crawl_repo_files` procedure with
its parsing, filtering and rendering phases, modelled over explicit character-list
operations mirroring the Python string semantics the source relies on.  The remote
filesystem collaborator (`GithubFileSystem` plus the branch existence check) is a
record of fallible operations; raised exceptions are `Except.error` carrying the
exception text, and the output sink is the concatenation of everything printed.
-/

namespace RepoCrawler

/-- Python `s.split(c)` helper: the first component of the tail and the remaining
components, for a single-character separator. -/
def splitCharAux (c : Char) : List Char → List Char × List (List Char)
  | [] => ([], [])
  | x :: xs =>
    if x = c then ([], (splitCharAux c xs).1 :: (splitCharAux c xs).2)
    else (x :: (splitCharAux c xs).1, (splitCharAux c xs).2)

/-- Python `s.split(c)`: the components separated by `c`; never the empty list. -/
def splitChar (c : Char) (l : List Char) : List (List Char) :=
  (splitCharAux c l).1 :: (splitCharAux c l).2

/-- Python `s.split(c, 1)`: `some (before, after)` at the first occurrence of `c`,
`none` when `c` does not occur in the string. -/
def splitFirstAux (c : Char) : List Char → Option (List Char × List Char)
  | [] => none
  | x :: xs =>
    if x = c then some ([], xs)
    else
      match splitFirstAux c xs with
      | none => none
      | some (a, b) => some (x :: a, b)

/-- Python `sep.join(strings)` for a single-character separator `sep`. -/
def joinChar (c : Char) : List String → String
  | [] => ""
  | [s] => s
  | s :: ss => s ++ String.singleton c ++ joinChar c ss

/-- Python `s.split(c)` at the `String` level. -/
def pySplit (c : Char) (s : String) : List String :=
  (splitChar c s.data).map String.mk

/-- Python format `"%05d"`: decimal digits left-padded with zeros to width 5. -/
def pad5 (n : Nat) : String :=
  ⟨List.replicate (5 - (toString n).length) '0' ++ (toString n).data⟩

/-- Python text-mode line iteration helper: split after each newline character,
keeping the newline at the end of each produced line; a final segment without a
newline is its own line, and empty input yields no lines. -/
def pyLinesAux (acc : List Char) : List Char → List (List Char)
  | [] => if acc = [] then [] else [acc.reverse]
  | c :: rest =>
    if c = '\n' then (acc.reverse ++ ['\n']) :: pyLinesAux [] rest
    else pyLinesAux (c :: acc) rest

/-- Python text-mode line iteration over a file's content. -/
def pyLines (s : String) : List String :=
  (pyLinesAux [] s.data).map String.mk

/-- Sequential writes to the output sink, as one concatenated string. -/
def concatStrs : List String → String
  | [] => ""
  | s :: ss => s ++ concatStrs ss

/-- The filesystem collaborator consumed by the crawl: the branch existence check
(`verify_branch_exists`, credentials elided as pass-through), the recursive
listing, the per-path metadata lookup (returning the `type` tag), and the content
read (returning the whole text).  Each either returns or raises. -/
structure FS where
  verify : String → String → String → Except String Unit
  glob : String → Except String (List String)
  info : String → Except String String
  openRead : String → Except String String

/-- The parsed (organization, repository, ref, subdirectory) tuple. -/
structure Locator where
  org : String
  repo : String
  ref : String
  subdir : String
  deriving DecidableEq

/-- An error propagated out of the crawl: its message and, when raised with an
explicit `from` cause, the causing exception's text. -/
structure CrawlError where
  msg : String
  cause : Option String
  deriving DecidableEq

/-- What one call observes: everything written to the output sink, and the error
that escaped the call, if any. -/
structure CrawlResult where
  output : String
  error : Option CrawlError
  deriving DecidableEq

/-- Lines 46-54 of `crawl.py`: strip the `github://` scheme, otherwise rewrite
`org/repo[:branch]` into the slash-separated form, with the branch defaulting to
`main` when no colon is present. -/
def pathNoScheme (githubPath : String) : String :=
  if githubPath.data.take 9 = "github://".data then ⟨githubPath.data.drop 9⟩
  else
    match splitFirstAux ':' githubPath.data with
    | some (a, b) => (⟨a⟩ : String) ++ "/" ++ (⟨b⟩ : String)
    | none => githubPath ++ "/" ++ "main"

/-- The error raised at line 58 of `crawl.py`. -/
def invalidPathErr : CrawlError :=
  ⟨"Invalid GitHub path: must include at least org and repo.", none⟩

/-- Lines 57-61 of `crawl.py`: fewer than two components is an error; org and repo
are the first two, the ref is the third (defaulting to `main`), and the
subdirectory joins every later component with slashes. -/
def mkLocator : List String → Except CrawlError Locator
  | [] => .error invalidPathErr
  | [_] => .error invalidPathErr
  | [o, r] => .ok ⟨o, r, "main", ""⟩
  | [o, r, rf] => .ok ⟨o, r, rf, ""⟩
  | o :: r :: rf :: d :: ds => .ok ⟨o, r, rf, joinChar '/' (d :: ds)⟩

/-- The whole parsing phase of `crawl_repo_files` (lines 46-61). -/
def parseLocator (githubPath : String) : Except CrawlError Locator :=
  mkLocator (pySplit '/' (pathNoScheme githubPath))

/-- Python `p.rsplit('.', 1)`: split at the last dot when there is one. -/
def rsplitDot (p : String) : List String :=
  match splitFirstAux '.' p.data.reverse with
  | none => [p]
  | some (a, b) => [⟨b.reverse⟩, ⟨a.reverse⟩]

/-- Lines 96-106 of `crawl.py`: `true` when the entry is skipped by the
include/exclude extension filter. -/
def skipByFilter (includeExts excludeExts : List String) (p : String) : Bool :=
  if includeExts ≠ [] then
    match rsplitDot p with
    | [_, e] => !(includeExts.contains e)
    | _ => true
  else if excludeExts ≠ [] then
    match rsplitDot p with
    | [_, e] => excludeExts.contains e
    | _ => false
  else false

/-- Lines 112-116 of `crawl.py`: the numbered-line printing loop, with the counter
starting at `n`. -/
def renderLines : List String → Nat → String
  | [], _ => ""
  | l :: ls, n => pad5 n ++ "| " ++ l ++ renderLines ls (n + 1)

/-- Line 69 of `crawl.py`: the recursive glob pattern. -/
def globPattern (subdir : String) : String :=
  if subdir = "" then "**" else subdir ++ "/**"

/-- Lines 85-119 of `crawl.py`: everything written to the sink for one listed
path. -/
def processEntry (fs : FS) (includeExts excludeExts : List String) (p : String) :
    String :=
  match fs.info p with
  | .error e => "Could not get info for " ++ p ++ ": " ++ e ++ "\n"
  | .ok ty =>
    if ty ≠ "file" then ""
    else if skipByFilter includeExts excludeExts p then ""
    else
      "# " ++ p ++ "\n" ++
        match fs.openRead p with
        | .ok c => renderLines (pyLines c) 1 ++ "\n"
        | .error e => "Error reading " ++ p ++ ": " ++ e ++ "\n"

/-- Lines 70-119 of `crawl.py`, after the ref check: handle the listing result and
run the per-entry loop. -/
def afterGlob (fs : FS) (includeExts excludeExts : List String) (loc : Locator) :
    Except String (List String) → CrawlResult
  | .error e =>
    ⟨"", some ⟨"Failed to access branch '" ++ loc.ref ++ "' in repository '"
      ++ loc.org ++ "/" ++ loc.repo ++ "'. Please verify that the branch exists.",
      some e⟩⟩
  | .ok allPaths =>
    if allPaths = [] then
      ⟨"", some ⟨"No files found in repository '" ++ loc.org ++ "/" ++ loc.repo
        ++ "' for branch '" ++ loc.ref
        ++ "'. This may be because the branch does not exist or is empty.", none⟩⟩
    else ⟨concatStrs (allPaths.map (processEntry fs includeExts excludeExts)), none⟩

/-- `crawl_repo_files` (lines 24-119 of `crawl.py`): output written to the sink
plus the error propagated out of the call, if any. -/
def crawl (fs : FS) (githubPath : String) (includeExts excludeExts : List String) :
    CrawlResult :=
  match parseLocator githubPath with
  | .error e => ⟨"", some e⟩
  | .ok loc =>
    match fs.verify loc.org loc.repo loc.ref with
    | .error e => ⟨"", some ⟨e, none⟩⟩
    | .ok _ =>
      afterGlob fs includeExts excludeExts loc (fs.glob (globPattern loc.subdir))

/-- From the spec wording: the extension of a path is the substring after the
final dot, when the path contains one. -/
def extAfterLastDot (p : String) : Option String :=
  match splitFirstAux '.' p.data.reverse with
  | none => none
  | some (a, _) => some ⟨a.reverse⟩

/-- From the spec wording: each line prefixed by the fixed-width zero-padded
1-based counter and the separator, counting from `n`. -/
def numberedFrom : Nat → List String → List String
  | _, [] => []
  | n, l :: ls => (pad5 n ++ "| " ++ l) :: numberedFrom (n + 1) ls

/-! ## Helper lemmas about the string machinery -/

theorem strMk_data (s : String) : (⟨s.data⟩ : String) = s := rfl

theorem strData_mk (l : List Char) : (String.mk l).data = l := rfl

theorem strData_append (a b : String) : (a ++ b).data = a.data ++ b.data := rfl

theorem strMk_append (a b : List Char) :
    (⟨a⟩ : String) ++ (⟨b⟩ : String) = ⟨a ++ b⟩ := rfl

/-- Splitting a list around an explicit separator occurrence splits into the two
sides' components. -/
theorem splitCharAux_sep_append (c : Char) (l r : List Char) :
    splitCharAux c (l ++ c :: r) =
      ((splitCharAux c l).1, (splitCharAux c l).2 ++ splitChar c r) := by
  induction l with
  | nil => simp [splitCharAux, splitChar]
  | cons x xs ih =>
    by_cases hx : x = c <;> simp [splitCharAux, hx, ih]

theorem splitChar_sep_append (c : Char) (l r : List Char) :
    splitChar c (l ++ c :: r) = splitChar c l ++ splitChar c r := by
  simp [splitChar, splitCharAux_sep_append]

theorem splitFirstAux_eq_none (c : Char) (l : List Char) (h : c ∉ l) :
    splitFirstAux c l = none := by
  induction l with
  | nil => rfl
  | cons x xs ih =>
    rw [List.mem_cons, not_or] at h
    have hx : ¬ x = c := fun hh => h.1 hh.symm
    simp [splitFirstAux, hx, ih h.2]

theorem pyLinesAux_flatten (l acc : List Char) :
    (pyLinesAux acc l).flatten = acc.reverse ++ l := by
  induction l generalizing acc with
  | nil => by_cases h : acc = [] <;> simp [pyLinesAux, h]
  | cons c rest ih =>
    by_cases hc : c = '\n'
    · subst hc
      simp [pyLinesAux, ih []]
    · simp [pyLinesAux, hc, ih (c :: acc)]

theorem concatStrs_map_mk (ls : List (List Char)) :
    concatStrs (ls.map String.mk) = ⟨ls.flatten⟩ := by
  induction ls with
  | nil => rfl
  | cons a t ih => simp [concatStrs, ih, strMk_append]

/-- The numbered-line rendering reproduces every line of the content verbatim:
joining the split lines gives back the original text. -/
theorem concatStrs_pyLines (c : String) : concatStrs (pyLines c) = c := by
  unfold pyLines
  rw [concatStrs_map_mk, pyLinesAux_flatten]
  rfl

theorem renderLines_eq_numbered (lines : List String) (n : Nat) :
    renderLines lines n = concatStrs (numberedFrom n lines) := by
  induction lines generalizing n with
  | nil => rfl
  | cons l ls ih => simp [renderLines, numberedFrom, concatStrs, ih]

/-! ## Stepping lemmas for the crawl -/

/-- After a successful parse and ref check, the crawl is the handling of the
listing result obtained from the glob pattern built from the subdirectory. -/
theorem crawl_eq_afterGlob (fs : FS) (gp : String) (inc exc : List String)
    (loc : Locator) (hparse : parseLocator gp = .ok loc)
    (hverify : fs.verify loc.org loc.repo loc.ref = .ok ()) :
    crawl fs gp inc exc =
      afterGlob fs inc exc loc (fs.glob (globPattern loc.subdir)) := by
  simp [crawl, hparse, hverify]

theorem afterGlob_ok_ne (fs : FS) (inc exc : List String) (loc : Locator)
    (paths : List String) (h : paths ≠ []) :
    afterGlob fs inc exc loc (.ok paths) =
      ⟨concatStrs (paths.map (processEntry fs inc exc)), none⟩ := by
  simp [afterGlob, h]

theorem processEntry_info_err (fs : FS) (inc exc : List String) (p e : String)
    (h : fs.info p = .error e) :
    processEntry fs inc exc p = "Could not get info for " ++ p ++ ": " ++ e ++ "\n" := by
  simp [processEntry, h]

theorem processEntry_read_err (fs : FS) (inc exc : List String) (p e : String)
    (hi : fs.info p = .ok "file") (hs : skipByFilter inc exc p = false)
    (hr : fs.openRead p = .error e) :
    processEntry fs inc exc p =
      "# " ++ p ++ "\n" ++ ("Error reading " ++ p ++ ": " ++ e ++ "\n") := by
  simp [processEntry, hi, hs, hr]

theorem processEntry_render (fs : FS) (inc exc : List String) (p c : String)
    (hi : fs.info p = .ok "file") (hs : skipByFilter inc exc p = false)
    (hr : fs.openRead p = .ok c) :
    processEntry fs inc exc p =
      "# " ++ p ++ "\n" ++ (renderLines (pyLines c) 1 ++ "\n") := by
  simp [processEntry, hi, hs, hr]

theorem skipByFilter_exclude_ignored (inc exc : List String) (p : String)
    (h : inc ≠ []) : skipByFilter inc exc p = skipByFilter inc [] p := by
  simp [skipByFilter, h]

theorem processEntry_exclude_ignored (fs : FS) (inc exc : List String)
    (h : inc ≠ []) : processEntry fs inc exc = processEntry fs inc [] := by
  funext p
  simp [processEntry, skipByFilter_exclude_ignored, h]

theorem afterGlob_exclude_ignored (fs : FS) (inc exc : List String) (loc : Locator)
    (x : Except String (List String)) (h : inc ≠ []) :
    afterGlob fs inc exc loc x = afterGlob fs inc [] loc x := by
  cases x with
  | error e => rfl
  | ok ps => simp [afterGlob, processEntry_exclude_ignored fs inc exc h]

/-! ## Lemmas about the parsing phase -/

/-- A scheme-prefixed input is exactly the text after the prefix. -/
theorem pathNoScheme_scheme (rest : String) :
    pathNoScheme ("github://" ++ rest) = rest := by
  have hcond : ("github://" ++ rest).data.take 9 = "github://".data := by
    rw [strData_append]
    rw [show (9 : Nat) = "github://".data.length from rfl]
    exact List.take_left _ _
  have hdrop : ("github://" ++ rest).data.drop 9 = rest.data := by
    rw [strData_append]
    rw [show (9 : Nat) = "github://".data.length from rfl]
    exact List.drop_left _ _
  unfold pathNoScheme
  rw [if_pos hcond, hdrop]

/-- An input with no scheme prefix and no colon gets `/main` appended. -/
theorem pathNoScheme_plain (gp : String)
    (hns : ¬ gp.data.take 9 = "github://".data) (hnc : ':' ∉ gp.data) :
    pathNoScheme gp = gp ++ "/" ++ "main" := by
  unfold pathNoScheme
  rw [if_neg hns, splitFirstAux_eq_none ':' gp.data hnc]

theorem pySplit_eq_chars (gp o r : String) (hsplit : pySplit '/' gp = [o, r]) :
    splitChar '/' gp.data = [o.data, r.data] := by
  have h2 := congrArg (List.map String.data) hsplit
  simpa [pySplit, List.map_map, show String.data ∘ String.mk = id from rfl] using h2

/-! ## Claim theorems -/

/-- C1: the claim says that for `org/repo:REF` with a slash-containing `REF` the
ref resolves to the whole string after the colon and the subdirectory is empty.
The code instead rebuilds the path as `org/repo/REF` and re-splits it on slashes,
so `user/repo:feature/x` parses with ref `feature` and subdirectory `x`, and
`user/repo:feature/sub-feature/final-name` parses with ref `feature` and
subdirectory `sub-feature/final-name` — contradicting the claim and the
repository's own tests, which assert the full ref is preserved. -/
theorem c1_colon_ref_with_slash_mangled :
    parseLocator "user/repo:feature/x" = .ok ⟨"user", "repo", "feature", "x"⟩ ∧
    parseLocator "user/repo:feature/sub-feature/final-name" =
      .ok ⟨"user", "repo", "feature", "sub-feature/final-name"⟩ ∧
    parseLocator "user/repo:feature/x" ≠
      .ok ⟨"user", "repo", "feature/x", ""⟩ := by
  refine ⟨rfl, rfl, fun h => ?_⟩
  have h0 : parseLocator "user/repo:feature/x" =
      .ok ⟨"user", "repo", "feature", "x"⟩ := rfl
  rw [h0] at h
  have h2 := Except.ok.inj h
  exact absurd (congrArg Locator.ref h2) (by decide)

/-- C4: the claim says malformed inputs (fewer than two segments before a ref
separator, such as `invalid-path`, or more than two, such as
`org/repo/extra:branch`) fail with the usage error message
"must be in format 'org/repo'".  The code accepts both: `invalid-path` parses as
org `invalid-path`, repo `main`, and `org/repo/extra:branch` parses as org `org`,
repo `repo`, ref `extra`, subdirectory `branch`, with no error raised; the only
reachable parse error carries a different message. -/
theorem c4_malformed_paths_accepted :
    parseLocator "invalid-path" = .ok ⟨"invalid-path", "main", "main", ""⟩ ∧
    parseLocator "org/repo/extra:branch" = .ok ⟨"org", "repo", "extra", "branch"⟩ ∧
    parseLocator "github://solo" = .error invalidPathErr ∧
    invalidPathErr.msg = "Invalid GitHub path: must include at least org and repo." :=
  ⟨rfl, rfl, rfl, rfl⟩

/-- C7 counterexample: `github://org/repo/ref/` has four slash-separated segments
after the prefix, the third is the ref and the join of the rest is the (empty)
subdirectory, yet the glob pattern built for the listing call is `**`, not the
`<subdirectory>/**` (that is, `/**`) the claim requires. -/
theorem c7_counterexample :
    pySplit '/' "org/repo/ref/" = ["org", "repo", "ref", ""] ∧
    parseLocator "github://org/repo/ref/" = .ok ⟨"org", "repo", "ref", ""⟩ ∧
    globPattern "" = "**" ∧
    globPattern "" ≠ "" ++ "/**" := by
  refine ⟨rfl, rfl, rfl, ?_⟩
  decide

/-- C7 (amended): for a scheme-prefixed input with more than 3 slash-separated
segments after the prefix, the 3rd segment is the ref and the slash-join of all
subsequent segments is the subdirectory; the listing call receives the pattern
`<subdirectory>/**` whenever that join is non-empty, and `**` when the join is
empty (a trailing-slash input). -/
theorem c7_scheme_parse (rest o r rf d : String) (ds : List String)
    (h : pySplit '/' rest = o :: r :: rf :: d :: ds) :
    parseLocator ("github://" ++ rest) = .ok ⟨o, r, rf, joinChar '/' (d :: ds)⟩ ∧
    (∀ s : String, s ≠ "" → globPattern s = s ++ "/**") ∧
    globPattern "" = "**" ∧
    (∀ (fs : FS) (inc exc : List String),
      fs.verify o r rf = .ok () →
      crawl fs ("github://" ++ rest) inc exc =
        afterGlob fs inc exc ⟨o, r, rf, joinChar '/' (d :: ds)⟩
          (fs.glob (globPattern (joinChar '/' (d :: ds))))) := by
  have hp : parseLocator ("github://" ++ rest) =
      .ok ⟨o, r, rf, joinChar '/' (d :: ds)⟩ := by
    unfold parseLocator
    rw [pathNoScheme_scheme, h]
    rfl
  refine ⟨hp, fun s hs => by simp [globPattern, hs], rfl, fun fs inc exc hv => ?_⟩
  exact crawl_eq_afterGlob fs _ inc exc _ hp hv

/-- C7 witness: the amended theorem applied to the input of the repository's own
scheme-grammar test. -/
theorem c7_scheme_parse_witness :
    parseLocator ("github://" ++ "user/repo/feature/new-feature") =
      .ok ⟨"user", "repo", "feature", "new-feature"⟩ :=
  (c7_scheme_parse "user/repo/feature/new-feature" "user" "repo" "feature"
    "new-feature" [] rfl).1

/-- C8: an input of the form `org/repo` — no colon, no scheme prefix, exactly two
slash-separated segments — resolves to ref `main` with an empty subdirectory, and
the listing call receives the pattern `**`. -/
theorem c8_default_ref (gp o r : String)
    (hns : ¬ gp.data.take 9 = "github://".data)
    (hnc : ':' ∉ gp.data)
    (hsplit : pySplit '/' gp = [o, r]) :
    parseLocator gp = .ok ⟨o, r, "main", ""⟩ ∧
    globPattern "" = "**" ∧
    (∀ (fs : FS) (inc exc : List String), fs.verify o r "main" = .ok () →
      crawl fs gp inc exc =
        afterGlob fs inc exc ⟨o, r, "main", ""⟩ (fs.glob "**")) := by
  have hchars := pySplit_eq_chars gp o r hsplit
  have hdata : (gp ++ "/" ++ "main").data = gp.data ++ '/' :: "main".data := by
    rw [strData_append, strData_append, List.append_assoc]
    rfl
  have hparts : pySplit '/' (pathNoScheme gp) = [o, r, "main"] := by
    rw [pathNoScheme_plain gp hns hnc]
    unfold pySplit
    rw [hdata, splitChar_sep_append, hchars]
    rfl
  have hp : parseLocator gp = .ok ⟨o, r, "main", ""⟩ := by
    unfold parseLocator
    rw [hparts]
    rfl
  refine ⟨hp, rfl, fun fs inc exc hv => ?_⟩
  exact crawl_eq_afterGlob fs _ inc exc _ hp hv

/-- C8 witness: the theorem applied to the concrete input `user/repo`. -/
theorem c8_default_ref_witness :
    parseLocator "user/repo" = .ok ⟨"user", "repo", "main", ""⟩ :=
  (c8_default_ref "user/repo" "user" "repo" (by decide) (by decide) rfl).1

/-- A filesystem whose single entry fails on the content read. -/
def fsReadFail : FS :=
  ⟨fun _ _ _ => .ok (), fun _ => .ok ["f.txt"], fun _ => .ok "file",
    fun _ => .error "boom"⟩

/-- C2 counterexample: for an entry whose content read raises, the code prints the
header line before opening the file, so the diagnostic does not appear in place of
the whole header-plus-numbered-lines block — the header remains, followed by the
diagnostic. -/
theorem c2_counterexample :
    (crawl fsReadFail "org/repo" [] []).output =
      "# f.txt\nError reading f.txt: boom\n" ∧
    (crawl fsReadFail "org/repo" [] []).output ≠ "Error reading f.txt: boom\n" := by
  refine ⟨rfl, ?_⟩
  rw [show (crawl fsReadFail "org/repo" [] []).output =
    "# f.txt\nError reading f.txt: boom\n" from rfl]
  decide

/-- C2 (amended): whenever parsing, the ref check and the listing succeed with a
non-empty listing, the run completes with no error and the output is the
in-order concatenation of the per-entry renderings, where an entry whose metadata
lookup raises contributes exactly the single diagnostic line
`Could not get info for <path>: <detail>` in place of its block, an entry whose
content read raises contributes its header line followed by the single diagnostic
line `Error reading <path>: <detail>` in place of the numbered lines and blank
separator, and every other kept entry renders normally. -/
theorem c2_per_entry_soft_failures (fs : FS) (gp : String) (inc exc : List String)
    (loc : Locator) (paths : List String)
    (hparse : parseLocator gp = .ok loc)
    (hverify : fs.verify loc.org loc.repo loc.ref = .ok ())
    (hglob : fs.glob (globPattern loc.subdir) = .ok paths)
    (hne : paths ≠ []) :
    (crawl fs gp inc exc).error = none ∧
    (crawl fs gp inc exc).output =
      concatStrs (paths.map (processEntry fs inc exc)) ∧
    (∀ p e, fs.info p = .error e →
      processEntry fs inc exc p =
        "Could not get info for " ++ p ++ ": " ++ e ++ "\n") ∧
    (∀ p e, fs.info p = .ok "file" → skipByFilter inc exc p = false →
      fs.openRead p = .error e →
      processEntry fs inc exc p =
        "# " ++ p ++ "\n" ++ ("Error reading " ++ p ++ ": " ++ e ++ "\n")) ∧
    (∀ p c, fs.info p = .ok "file" → skipByFilter inc exc p = false →
      fs.openRead p = .ok c →
      processEntry fs inc exc p =
        "# " ++ p ++ "\n" ++ (renderLines (pyLines c) 1 ++ "\n")) := by
  have hc := crawl_eq_afterGlob fs gp inc exc loc hparse hverify
  rw [hglob, afterGlob_ok_ne fs inc exc loc paths hne] at hc
  refine ⟨by rw [hc], by rw [hc], ?_, ?_, ?_⟩
  · exact fun p e h => processEntry_info_err fs inc exc p e h
  · exact fun p e hi hs hr => processEntry_read_err fs inc exc p e hi hs hr
  · exact fun p c hi hs hr => processEntry_render fs inc exc p c hi hs hr

/-- A filesystem with one normal entry, one failing its metadata lookup and one
failing its content read. -/
def fsMixed : FS where
  verify := fun _ _ _ => .ok ()
  glob := fun _ => .ok ["good.txt", "bad1", "bad2"]
  info := fun p => if p = "bad1" then .error "nope" else .ok "file"
  openRead := fun p => if p = "bad2" then .error "denied" else .ok "hi\n"

/-- C2 witness: the amended theorem applied to a concrete three-entry crawl. -/
theorem c2_per_entry_soft_failures_witness :
    (crawl fsMixed "u/r" [] []).error = none ∧
    (crawl fsMixed "u/r" [] []).output =
      "# good.txt\n00001| hi\n\nCould not get info for bad1: nope\n# bad2\nError reading bad2: denied\n" := by
  have h := c2_per_entry_soft_failures fsMixed "u/r" [] [] ⟨"u", "r", "main", ""⟩
    ["good.txt", "bad1", "bad2"] rfl rfl rfl (by decide)
  exact ⟨h.1, h.2.1.trans rfl⟩

/-- A filesystem whose single listed entry has no extension. -/
def fsNoDot : FS :=
  ⟨fun _ _ _ => .ok (), fun _ => .ok ["README"], fun _ => .ok "file",
    fun _ => .ok "hello\n"⟩

/-- C3 counterexample: the claim says an entry whose path contains no dot is
always kept, in include mode too; but with `includeExtensions = [py]` the
extensionless entry `README` is skipped by the filter and contributes nothing to
the output. -/
theorem c3_counterexample :
    skipByFilter ["py"] [] "README" = true ∧
    (crawl fsNoDot "org/repo" ["py"] []).output = "" := ⟨rfl, rfl⟩

/-- C3 (amended): with a non-empty include list an entry is kept exactly when it
has an extension (a final dot) that is a member of the list — so extensionless
entries are dropped in include mode; with an empty include list and a non-empty
exclude list an entry is kept exactly when it has no extension in the list — so
extensionless entries are always kept in exclude mode. -/
theorem c3_filter_semantics (inc exc : List String) (p : String) :
    (inc ≠ [] → (skipByFilter inc exc p = false ↔
      ∃ e, extAfterLastDot p = some e ∧ inc.contains e = true)) ∧
    (exc ≠ [] → (skipByFilter [] exc p = false ↔
      ∀ e, extAfterLastDot p = some e → exc.contains e = false)) ∧
    (inc ≠ [] → extAfterLastDot p = none → skipByFilter inc exc p = true) ∧
    (exc ≠ [] → extAfterLastDot p = none → skipByFilter [] exc p = false) := by
  refine ⟨fun hinc => ?_, fun hexc => ?_, fun hinc he => ?_, fun hexc he => ?_⟩ <;>
    unfold skipByFilter rsplitDot extAfterLastDot at * <;>
    cases h : splitFirstAux '.' p.data.reverse <;>
    simp_all

/-- C3 witness: the amended theorem applied to a path with extension `py` and the
include list containing it. -/
theorem c3_filter_semantics_witness :
    skipByFilter ["py"] ["svg"] "a.py" = false :=
  ((c3_filter_semantics ["py"] ["svg"] "a.py").1 (by decide)).mpr
    ⟨"py", rfl, rfl⟩

/-- C5: whenever parsing, the ref check and the listing succeed with a non-empty
listing, the output is the in-order concatenation of the per-entry blocks, a kept
entry whose read succeeds renders byte-exactly as the header line `# <path>`,
then each content line prefixed by the 1-based zero-padded 5-digit counter and
`| `, then one newline as the separator; and joining the split lines reproduces
the file content verbatim, each line keeping its original terminator. -/
theorem c5_block_rendering (fs : FS) (gp : String) (inc exc : List String)
    (loc : Locator) (paths : List String)
    (hparse : parseLocator gp = .ok loc)
    (hverify : fs.verify loc.org loc.repo loc.ref = .ok ())
    (hglob : fs.glob (globPattern loc.subdir) = .ok paths)
    (hne : paths ≠ []) :
    (crawl fs gp inc exc).output =
      concatStrs (paths.map (processEntry fs inc exc)) ∧
    (∀ p c, fs.info p = .ok "file" → skipByFilter inc exc p = false →
      fs.openRead p = .ok c →
      processEntry fs inc exc p =
        "# " ++ p ++ "\n" ++ (concatStrs (numberedFrom 1 (pyLines c)) ++ "\n")) ∧
    (∀ c, concatStrs (pyLines c) = c) := by
  have hc := crawl_eq_afterGlob fs gp inc exc loc hparse hverify
  rw [hglob, afterGlob_ok_ne fs inc exc loc paths hne] at hc
  refine ⟨by rw [hc], fun p c hi hs hr => ?_, concatStrs_pyLines⟩
  rw [processEntry_render fs inc exc p c hi hs hr, renderLines_eq_numbered]

/-- A filesystem with two readable files, the first ending without a newline. -/
def fsTwoFiles : FS where
  verify := fun _ _ _ => .ok ()
  glob := fun _ => .ok ["a.py", "b.txt"]
  info := fun _ => .ok "file"
  openRead := fun p => if p = "a.py" then .ok "x\ny" else .ok "line\n"

/-- C5 witness: the theorem applied to a concrete two-file crawl, giving the
byte-exact output. -/
theorem c5_block_rendering_witness :
    (crawl fsTwoFiles "u/r" [] []).output =
      "# a.py\n00001| x\n00002| y\n# b.txt\n00001| line\n\n" := by
  have h := c5_block_rendering fsTwoFiles "u/r" [] [] ⟨"u", "r", "main", ""⟩
    ["a.py", "b.txt"] rfl rfl rfl (by decide)
  exact h.1.trans rfl

/-- C6: whenever parsing and the ref check succeed but the listing returns zero
paths, the crawl fails with the descriptive empty-result error and nothing has
been written to the output sink. -/
theorem c6_empty_listing (fs : FS) (gp : String) (inc exc : List String)
    (loc : Locator)
    (hparse : parseLocator gp = .ok loc)
    (hverify : fs.verify loc.org loc.repo loc.ref = .ok ())
    (hglob : fs.glob (globPattern loc.subdir) = .ok []) :
    crawl fs gp inc exc =
      ⟨"", some ⟨"No files found in repository '" ++ loc.org ++ "/" ++ loc.repo
        ++ "' for branch '" ++ loc.ref
        ++ "'. This may be because the branch does not exist or is empty.",
        none⟩⟩ := by
  rw [crawl_eq_afterGlob fs gp inc exc loc hparse hverify, hglob]
  rfl

/-- A filesystem whose recursive listing returns no paths. -/
def fsEmpty : FS :=
  ⟨fun _ _ _ => .ok (), fun _ => .ok [], fun _ => .ok "file", fun _ => .ok ""⟩

/-- C6 witness: the theorem applied to a concrete empty listing. -/
theorem c6_empty_listing_witness :
    crawl fsEmpty "u/r" [] [] =
      ⟨"", some ⟨"No files found in repository 'u/r' for branch 'main'. This may be because the branch does not exist or is empty.", none⟩⟩ :=
  (c6_empty_listing fsEmpty "u/r" [] [] ⟨"u", "r", "main", ""⟩ rfl rfl rfl).trans rfl

/-- C9: with a non-empty include list, the whole observable result of the crawl —
output and error alike — is identical whatever the exclude list is: a non-empty
include list takes precedence and the exclude list is ignored. -/
theorem c9_include_precedence (fs : FS) (gp : String) (inc exc : List String)
    (h : inc ≠ []) : crawl fs gp inc exc = crawl fs gp inc [] := by
  cases hp : parseLocator gp with
  | error e => simp [crawl, hp]
  | ok loc =>
    cases hv : fs.verify loc.org loc.repo loc.ref with
    | error e => simp [crawl, hp, hv]
    | ok u =>
      cases u
      rw [crawl_eq_afterGlob fs gp inc exc loc hp hv,
        crawl_eq_afterGlob fs gp inc [] loc hp hv]
      exact afterGlob_exclude_ignored fs inc exc loc _ h

/-- A plain filesystem with two readable files for the precedence witness. -/
def fsPlain : FS :=
  ⟨fun _ _ _ => .ok (), fun _ => .ok ["a.py", "b.txt"], fun _ => .ok "file",
    fun _ => .ok "z\n"⟩

/-- C9 witness: the theorem applied with both filter lists non-empty. -/
theorem c9_include_precedence_witness :
    crawl fsPlain "u/r" ["py"] ["txt"] = crawl fsPlain "u/r" ["py"] [] :=
  c9_include_precedence fsPlain "u/r" ["py"] ["txt"] (by decide)

/-- C10: whenever parsing and the ref check succeed but the listing call itself
raises, the crawl fails with the descriptive error naming the ref, organization
and repository, the raising exception is preserved as the cause, and nothing has
been written to the output sink. -/
theorem c10_listing_exception (fs : FS) (gp : String) (inc exc : List String)
    (loc : Locator) (e : String)
    (hparse : parseLocator gp = .ok loc)
    (hverify : fs.verify loc.org loc.repo loc.ref = .ok ())
    (hglob : fs.glob (globPattern loc.subdir) = .error e) :
    crawl fs gp inc exc =
      ⟨"", some ⟨"Failed to access branch '" ++ loc.ref ++ "' in repository '"
        ++ loc.org ++ "/" ++ loc.repo ++ "'. Please verify that the branch exists.",
        some e⟩⟩ := by
  rw [crawl_eq_afterGlob fs gp inc exc loc hparse hverify, hglob]
  rfl

/-- A filesystem whose recursive listing raises. -/
def fsGlobFail : FS :=
  ⟨fun _ _ _ => .ok (), fun _ => .error "HTTP 404", fun _ => .ok "file",
    fun _ => .ok ""⟩

/-- C10 witness: the theorem applied to a concrete failing listing. -/
theorem c10_listing_exception_witness :
    crawl fsGlobFail "u/r" [] [] =
      ⟨"", some ⟨"Failed to access branch 'main' in repository 'u/r'. Please verify that the branch exists.", some "HTTP 404"⟩⟩ :=
  (c10_listing_exception fsGlobFail "u/r" [] [] ⟨"u", "r", "main", ""⟩ "HTTP 404"
    rfl rfl rfl).trans rfl

end RepoCrawler
